import Mathlib

set_option maxRecDepth 8000

/-!
# Verification of `research_streamlit_app.py`

A shallow embedding of the `ResearchAssistant` class of
`src/research_streamlit_app.py` and proofs about it.

Conventions of the embedding:

* Python strings are `List Char` (`PyStr`); `len`, slicing, `strip`, `find`,
  `rfind`, `startswith`, `replace` and `in` are modelled char-for-char.
  `str.strip()` is modelled on the ASCII whitespace characters; exotic Unicode
  whitespace is out of scope of every claim considered here.
* Python values decoded from JSON are the inductive `JVal`; a `dict` is an
  association list in insertion order with in-place overwrite, exactly the
  visible behaviour of a Python `dict`.  JSON numbers are kept as their source
  lexeme: no claim inspects a numeric value, only truthiness and lengths.
* `json.loads` is modelled by `jsonLoads`, a fueled recursive-descent parser
  following Python's `json` module grammar (strict control characters, the
  `NaN`/`Infinity`/`-Infinity` extensions, last-wins duplicate keys).  A lone
  `\uXXXX` surrogate escape, which Python would keep as a lone surrogate code
  unit, is mapped through `Char.ofNat` since a Lean `Char` is a scalar value;
  no claim involves such strings.
* HTTP calls are oracle parameters (`Oracles`): each call site consults the
  oracle and `none` models a raised/failed request.  Every function also
  reports the requests it dispatched, so that "no call occurs" is a statement
  about the returned trace.
* Exceptions are modelled with `Except PyExc`; a Python `try/except Exception`
  is a `match` on the `Except` value.
* `create_research_prompt` (pure string templating, lines 146-234) and the
  request bodies only feed the HTTP requests, whose responses are already
  arbitrary oracle values; the prompt text itself is therefore not re-modelled.
-/

abbrev PyStr := List Char

/-- ASCII whitespace stripped by Python `str.strip()`. -/
def pySpace (c : Char) : Bool :=
  c = ' ' || c = '\t' || c = '\n' || c = '\r' || c = '\x0b' || c = '\x0c'

/-- Python `s.strip()`: remove leading and trailing whitespace. -/
def pyStrip (l : PyStr) : PyStr :=
  ((l.dropWhile pySpace).reverse.dropWhile pySpace).reverse

/-- Python `s.find(c)`: index of the first occurrence of `c`, `-1` if absent
(line 319 of the source). -/
def pyFindChar (l : PyStr) (c : Char) : Int :=
  match l.findIdx? (· = c) with
  | some i => (i : Int)
  | none => -1

/-- Python `s.rfind(c)`: index of the last occurrence of `c`, `-1` if absent
(line 320 of the source). -/
def pyRfindChar (l : PyStr) (c : Char) : Int :=
  match l.reverse.findIdx? (· = c) with
  | some i => ((l.length - 1 - i : Nat) : Int)
  | none => -1

/-- Python `s[a:b]` for nonnegative, already clamped bounds. -/
def pySlice (l : PyStr) (a b : Nat) : PyStr := (l.take b).drop a

/-- One pass of Python `s.replace(pat, rep)` (all occurrences, left to right),
with explicit fuel; `pyReplace` supplies sufficient fuel. -/
def replaceFuel (rep pat : PyStr) : Nat → PyStr → PyStr
  | 0, s => s
  | f + 1, s =>
    match s with
    | [] => []
    | c :: r =>
      if pat ≠ [] ∧ pat.isPrefixOf s then rep ++ replaceFuel rep pat f (s.drop pat.length)
      else c :: replaceFuel rep pat f r

/-- Python `s.replace(pat, rep)` for a non-empty pattern. -/
def pyReplace (s pat rep : PyStr) : PyStr := replaceFuel rep pat s.length s

/-! ## Python values and dicts -/

/-- A Python value as produced by `json.loads` (and re-stored into result
dicts).  Numbers keep their lexeme. -/
inductive JVal where
  | null
  | bool (b : Bool)
  | num (lexeme : PyStr)
  | str (s : PyStr)
  | arr (elems : List JVal)
  | obj (members : List (PyStr × JVal))

instance : Inhabited JVal := ⟨JVal.null⟩

/-- A Python `dict` with string keys: association list in insertion order. -/
abbrev PyDict := List (PyStr × JVal)

/-- Keys of a dict, in order. -/
def pdictKeys (d : PyDict) : List PyStr := d.map (·.1)

/-- Python `d.get(k)` (`None` when absent, modelled as `none`). -/
def pdictGet (d : PyDict) (k : PyStr) : Option JVal :=
  (d.find? (fun kv => kv.1 == k)).map (·.2)

/-- Python `d.get(k, dflt)`. -/
def pdictGetD (d : PyDict) (k : PyStr) (dflt : JVal) : JVal :=
  (pdictGet d k).getD dflt

/-- Python `d[k] = v`: overwrite in place if the key exists, else append. -/
def pdictSet (d : PyDict) (k : PyStr) (v : JVal) : PyDict :=
  if (pdictKeys d).contains k then
    d.map (fun kv => if kv.1 == k then (k, v) else kv)
  else d ++ [(k, v)]

/-- Zero test for a JSON number lexeme: it has a digit and every digit of the
significand (before any exponent marker) is `0`.  `NaN`/`Infinity` have no
digit and are truthy, as in Python. -/
def numIsZero (s : PyStr) : Bool :=
  s.any (·.isDigit) &&
    (s.takeWhile (fun c => c ≠ 'e' && c ≠ 'E')).all (fun c => !c.isDigit || c == '0')

/-- Python truthiness of a value. -/
def pyTruthy : JVal → Bool
  | .null => false
  | .bool b => b
  | .num s => !numIsZero s
  | .str s => !s.isEmpty
  | .arr xs => !xs.isEmpty
  | .obj m => !m.isEmpty

/-- Truthiness of an `Optional` value (`d.get(k)` result). -/
def pyTruthyOpt : Option JVal → Bool
  | none => false
  | some v => pyTruthy v

/-- Truthiness of an optional string (API keys: `None` and `""` are falsy). -/
def pyTruthyOptStr : Option PyStr → Bool
  | none => false
  | some s => !s.isEmpty

/-- Exceptions that the modelled code can raise. -/
inductive PyExc where
  | jsonDecodeError
  | typeError
deriving DecidableEq

/-- Python `len(v)` for a JSON-shaped value; `TypeError` on unsized values. -/
def pyLen : JVal → Except PyExc Nat
  | .arr xs => .ok xs.length
  | .str s => .ok s.length
  | .obj m => .ok m.length
  | _ => .error .typeError

/-- Python `for x in v`: the sequence iterated over.  A string yields its
characters as one-char strings, a dict its keys; other scalars raise
`TypeError`. -/
def pyIter : JVal → Except PyExc (List JVal)
  | .arr xs => .ok xs
  | .str s => .ok (s.map (fun c => JVal.str [c]))
  | .obj m => .ok (m.map (fun kv => JVal.str kv.1))
  | _ => .error .typeError

/-! `str(v)` / f-string interpolation of a value, used only to build the
`relevance` strings.  Containers are rendered in Python `repr` style (string
escaping inside `repr` is not reproduced; no claim inspects these strings). -/

mutual

/-- Python `repr(v)` for JSON-shaped values (approximate, see above). -/
def pyRepr : JVal → PyStr
  | .null => "None".toList
  | .bool true => "True".toList
  | .bool false => "False".toList
  | .num s => s
  | .str s => '\'' :: s ++ ['\'']
  | .arr xs => '[' :: pyReprElems xs ++ [']']
  | .obj m => '\x7b' :: pyReprMembers m ++ ['\x7d']

/-- Comma-joined `repr`s of list elements. -/
def pyReprElems : List JVal → PyStr
  | [] => []
  | [x] => pyRepr x
  | x :: xs => pyRepr x ++ ", ".toList ++ pyReprElems xs

/-- Comma-joined `repr`s of dict members. -/
def pyReprMembers : List (PyStr × JVal) → PyStr
  | [] => []
  | [(k, v)] => pyRepr (.str k) ++ ": ".toList ++ pyRepr v
  | (k, v) :: m => pyRepr (.str k) ++ ": ".toList ++ pyRepr v ++ ", ".toList ++ pyReprMembers m

end

/-- Python `str(v)` as interpolated by an f-string: a string stays itself,
everything else is its `repr`. -/
def pyFormat : JVal → PyStr
  | .str s => s
  | v => pyRepr v

/-! ## `json.loads` -/

/-- JSON inter-token whitespace (Python `json` module). -/
def jsonWs (c : Char) : Bool := c = ' ' || c = '\t' || c = '\n' || c = '\r'

/-- Skip JSON whitespace. -/
def skipWs (l : PyStr) : PyStr := l.dropWhile jsonWs

/-- Value of a hex digit. -/
def hexVal (c : Char) : Option Nat :=
  if '0' ≤ c ∧ c ≤ '9' then some (c.toNat - 48)
  else if 'a' ≤ c ∧ c ≤ 'f' then some (c.toNat - 87)
  else if 'A' ≤ c ∧ c ≤ 'F' then some (c.toNat - 55)
  else none

/-- JSON one-character escapes. -/
def escChar (c : Char) : Option Char :=
  if c = '"' then some '"'
  else if c = '\\' then some '\\'
  else if c = '/' then some '/'
  else if c = 'b' then some '\x08'
  else if c = 'f' then some '\x0c'
  else if c = 'n' then some '\n'
  else if c = 'r' then some '\r'
  else if c = 't' then some '\t'
  else none

/-- Body of a JSON string after the opening quote: returns the decoded string
and the input after the closing quote.  Raw control characters are rejected
(Python's strict mode); `\uXXXX` escapes combine surrogate pairs. -/
def parseStringBody : Nat → PyStr → Option (PyStr × PyStr)
  | 0, _ => none
  | _ + 1, [] => none
  | f + 1, c :: r =>
    if c = '"' then some ([], r)
    else if c = '\\' then
      match r with
      | [] => none
      | e :: r2 =>
        if e = 'u' then
          match r2 with
          | h1 :: h2 :: h3 :: h4 :: r3 =>
            match hexVal h1, hexVal h2, hexVal h3, hexVal h4 with
            | some a, some b, some c', some d =>
              let code := ((a * 16 + b) * 16 + c') * 16 + d
              if 0xD800 ≤ code ∧ code ≤ 0xDBFF then
                match r3 with
                | '\\' :: 'u' :: g1 :: g2 :: g3 :: g4 :: r4 =>
                  match hexVal g1, hexVal g2, hexVal g3, hexVal g4 with
                  | some a2, some b2, some c2, some d2 =>
                    let code2 := ((a2 * 16 + b2) * 16 + c2) * 16 + d2
                    if 0xDC00 ≤ code2 ∧ code2 ≤ 0xDFFF then
                      (parseStringBody f r4).map
                        (fun p =>
                          (Char.ofNat (0x10000 + (code - 0xD800) * 0x400 + (code2 - 0xDC00)) :: p.1,
                           p.2))
                    else (parseStringBody f r3).map (fun p => (Char.ofNat code :: p.1, p.2))
                  | _, _, _, _ => (parseStringBody f r3).map (fun p => (Char.ofNat code :: p.1, p.2))
                | _ => (parseStringBody f r3).map (fun p => (Char.ofNat code :: p.1, p.2))
              else (parseStringBody f r3).map (fun p => (Char.ofNat code :: p.1, p.2))
            | _, _, _, _ => none
          | _ => none
        else
          match escChar e with
          | some ec => (parseStringBody f r2).map (fun p => (ec :: p.1, p.2))
          | none => none
    else if c.toNat < 32 then none
    else (parseStringBody f r).map (fun p => (c :: p.1, p.2))

/-- Fraction and exponent of a JSON number, Python's `NUMBER_RE`: each part is
consumed only when completely well-formed. -/
def numFracExp (r : PyStr) : PyStr × PyStr :=
  let fr :=
    match r with
    | '.' :: d :: ds =>
      if d.isDigit then ('.' :: (d :: ds).takeWhile Char.isDigit, (d :: ds).dropWhile Char.isDigit)
      else ([], r)
    | _ => ([], r)
  let r1 := fr.2
  let ex :=
    match r1 with
    | e :: rest =>
      if e = 'e' ∨ e = 'E' then
        match rest with
        | s :: rest2 =>
          if s = '+' ∨ s = '-' then
            match rest2 with
            | d :: _ =>
              if d.isDigit then (e :: s :: rest2.takeWhile Char.isDigit, rest2.dropWhile Char.isDigit)
              else ([], r1)
            | [] => ([], r1)
          else if s.isDigit then (e :: rest.takeWhile Char.isDigit, rest.dropWhile Char.isDigit)
          else ([], r1)
        | [] => ([], r1)
      else ([], r1)
    | [] => ([], r1)
  (fr.1 ++ ex.1, ex.2)

/-- A JSON number lexeme at the head of the input (Python's `NUMBER_RE` match):
`-?(0|[1-9][0-9]*)(.[0-9]+)?([eE][+-]?[0-9]+)?`. -/
def parseNumber (l : PyStr) : Option (PyStr × PyStr) :=
  let sl : PyStr × PyStr :=
    match l with
    | '-' :: r => (['-'], r)
    | _ => ([], l)
  match sl.2 with
  | [] => none
  | c :: r =>
    if c = '0' then
      let fe := numFracExp r
      some (sl.1 ++ '0' :: fe.1, fe.2)
    else if c.isDigit then
      let fe := numFracExp ((c :: r).dropWhile Char.isDigit)
      some (sl.1 ++ (c :: r).takeWhile Char.isDigit ++ fe.1, fe.2)
    else none

mutual

/-- A JSON value at the head of the input (no leading whitespace).  Mirrors
Python's `json` scanner, including the `NaN`/`Infinity`/`-Infinity`
extensions. -/
def parseValue : Nat → PyStr → Option (JVal × PyStr)
  | 0, _ => none
  | f + 1, l =>
    match l with
    | [] => none
    | c :: r =>
      if c = '\x7b' then
        (parseObjRest f (skipWs r)).map (fun p => (JVal.obj p.1, p.2))
      else if c = '[' then
        (parseArrRest f (skipWs r)).map (fun p => (JVal.arr p.1, p.2))
      else if c = '"' then
        (parseStringBody (r.length + 1) r).map (fun p => (JVal.str p.1, p.2))
      else if c = 't' then
        match r with
        | 'r' :: 'u' :: 'e' :: r2 => some (JVal.bool true, r2)
        | _ => none
      else if c = 'f' then
        match r with
        | 'a' :: 'l' :: 's' :: 'e' :: r2 => some (JVal.bool false, r2)
        | _ => none
      else if c = 'n' then
        match r with
        | 'u' :: 'l' :: 'l' :: r2 => some (JVal.null, r2)
        | _ => none
      else if c = 'N' then
        match r with
        | 'a' :: 'N' :: r2 => some (JVal.num "NaN".toList, r2)
        | _ => none
      else if c = 'I' then
        match r with
        | 'n' :: 'f' :: 'i' :: 'n' :: 'i' :: 't' :: 'y' :: r2 => some (JVal.num "Infinity".toList, r2)
        | _ => none
      else if c = '-' then
        match r with
        | 'I' :: 'n' :: 'f' :: 'i' :: 'n' :: 'i' :: 't' :: 'y' :: r2 =>
          some (JVal.num "-Infinity".toList, r2)
        | _ => (parseNumber (c :: r)).map (fun p => (JVal.num p.1, p.2))
      else
        (parseNumber (c :: r)).map (fun p => (JVal.num p.1, p.2))

/-- Object members after `{` and whitespace. -/
def parseObjRest : Nat → PyStr → Option (PyDict × PyStr)
  | 0, _ => none
  | f + 1, l =>
    match l with
    | '\x7d' :: r => some ([], r)
    | _ => parseMembers f l []

/-- One or more `"key": value` members; duplicate keys overwrite (last wins),
as `dict` building does in Python. -/
def parseMembers : Nat → PyStr → PyDict → Option (PyDict × PyStr)
  | 0, _, _ => none
  | f + 1, l, acc =>
    match l with
    | '"' :: r =>
      match parseStringBody (r.length + 1) r with
      | none => none
      | some (k, rest) =>
        match skipWs rest with
        | ':' :: r2 =>
          match parseValue f (skipWs r2) with
          | none => none
          | some (v, rest2) =>
            match skipWs rest2 with
            | ',' :: r3 => parseMembers f (skipWs r3) (pdictSet acc k v)
            | '\x7d' :: r3 => some (pdictSet acc k v, r3)
            | _ => none
        | _ => none
    | _ => none

/-- Array elements after `[` and whitespace. -/
def parseArrRest : Nat → PyStr → Option (List JVal × PyStr)
  | 0, _ => none
  | f + 1, l =>
    match l with
    | ']' :: r => some ([], r)
    | _ => parseElems f l []

/-- One or more array elements. -/
def parseElems : Nat → PyStr → List JVal → Option (List JVal × PyStr)
  | 0, _, _ => none
  | f + 1, l, acc =>
    match parseValue f l with
    | none => none
    | some (v, rest) =>
      match skipWs rest with
      | ',' :: r2 => parseElems f (skipWs r2) (acc ++ [v])
      | ']' :: r2 => some (acc ++ [v], r2)
      | _ => none

end

/-- Python `json.loads`: exactly one value, surrounded by optional whitespace.
Fuel accounting: each call frame spends one fuel unit, and every consumed
input character pays for at most three frames — its `parseValue` frame plus,
when it is an opening bracket, the `parseObjRest`/`parseArrRest` frame and the
first `parseMembers`/`parseElems` frame it opens; each later loop iteration is
paid for by the `,` it consumes.  So `3 * t.length + 3` never runs out on a
text that `json.loads` accepts, and the decoder diverges from Python only on
the declared idealisations, not on fuel. -/
def jsonLoads (t : PyStr) : Option JVal :=
  match parseValue (3 * t.length + 3) (skipWs t) with
  | some (v, rest) => if skipWs rest = [] then some v else none
  | none => none

/-! ## `ResearchAssistant.parse_json_response` (lines 310-345) -/

/-- The `'```json'` fence marker (line 314), written out as characters. -/
def fenceTagJson : PyStr := ['\x60', '\x60', '\x60', 'j', 's', 'o', 'n']

/-- The `'```'` fence marker (line 316). -/
def fenceTag : PyStr := ['\x60', '\x60', '\x60']

/-- Lines 313-317: strip a leading code fence.  Python's `t[7:-3]` and
`t[3:-3]` drop a fixed head and the final three characters; the upper slice
bound `len - 3` is clamped at `0`, which `Nat` subtraction matches. -/
def stripFences (t : PyStr) : PyStr :=
  if fenceTagJson.isPrefixOf t then pyStrip (pySlice t 7 (t.length - 3))
  else if fenceTag.isPrefixOf t then pyStrip (pySlice t 3 (t.length - 3))
  else t

/-- Lines 313-317 applied to the raw response: strip, then de-fence. -/
def fenceStripped (s : PyStr) : PyStr := stripFences (pyStrip s)

/-- Lines 319-323: locate the first `{` and the last `}` and slice between
them.  `json_end = rfind + 1` is `0`, not `-1`, when no `}` exists, so the
`json_end != -1` test is vacuous, exactly as in the source. -/
def extractCandidate (s : PyStr) : Option PyStr :=
  let t := fenceStripped s
  let js := pyFindChar t '\x7b'
  let je := pyRfindChar t '\x7d' + 1
  if js ≠ -1 ∧ je ≠ -1 then some (pySlice t js.toNat je.toNat) else none

def contentKey : PyStr := "content".toList
def vqKey : PyStr := "video_search_queries".toList
def dqKey : PyStr := "document_search_queries".toList
def wqKey : PyStr := "web_search_queries".toList
def lqKey : PyStr := "linkedin_search_queries".toList
def seKey : PyStr := "suggested_experts".toList
def ssKey : PyStr := "suggested_sources".toList
def videosKey : PyStr := "videos".toList

/-- The `required_keys` list of lines 326-327. -/
def requiredKeys : List PyStr := [contentKey, vqKey, dqKey, wqKey, lqKey, seKey, ssKey]

/-- The list-valued required keys (everything but `content`). -/
def listFieldKeys : List PyStr := [vqKey, dqKey, wqKey, lqKey, seKey, ssKey]

/-- Line 330: the default written for a missing required key. -/
def keyDefault (k : PyStr) : JVal := if k ≠ contentKey then JVal.arr [] else JVal.str []

/-- One iteration of the loop of lines 328-330: insert an empty default when
the key is missing. -/
def backfillStep (d : PyDict) (k : PyStr) : PyDict :=
  if (pdictKeys d).contains k then d else pdictSet d k (keyDefault k)

/-- Lines 328-330: insert an empty default for each missing required key. -/
def backfillRequired (d : PyDict) : PyDict :=
  requiredKeys.foldl backfillStep d

/-- The fixed apology string of line 338. -/
def apologyText : PyStr :=
  "Unable to generate research content. Please check your API keys and try again.".toList

/-- Lines 337-345: the canonical fallback object. -/
def fallbackDict : PyDict :=
  [(contentKey, JVal.str apologyText),
   (vqKey, JVal.arr []),
   (dqKey, JVal.arr []),
   (wqKey, JVal.arr []),
   (lqKey, JVal.arr []),
   (seKey, JVal.arr []),
   (ssKey, JVal.arr [])]

/-- The `try` block of lines 312-332: `.ok (some d)` is `return parsed_data`,
`.ok none` is falling past the `if` (no `{` found), `.error` is a raised
exception.  A decoded non-dict value would raise `TypeError` in the
required-key loop; that branch is in fact unreachable because the slice, when
non-empty, starts at the first `{`. -/
def parseAttempt (s : PyStr) : Except PyExc (Option PyDict) :=
  match extractCandidate s with
  | some slice =>
    match jsonLoads slice with
    | some (JVal.obj o) => .ok (some (backfillRequired o))
    | some _ => .error .typeError
    | none => .error .jsonDecodeError
  | none => .ok none

/-- `parse_json_response` (lines 310-345): the `try` block, with both the
fall-through and the `except` handler ending at the fallback `return` of
lines 337-345. -/
def parse_json_response (s : PyStr) : PyDict :=
  match parseAttempt s with
  | .ok (some d) => d
  | .ok none => fallbackDict
  | .error _ => fallbackDict

/-- `parse_json_response` with the exception behaviour left visible: an
uncaught exception would surface as `.error`.  The `except Exception` handler
of line 334 catches every exception the body can raise. -/
def parse_json_response_checked (s : PyStr) : Except PyExc PyDict :=
  match parseAttempt s with
  | .ok (some d) => .ok d
  | .ok none => .ok fallbackDict
  | .error _ => .ok fallbackDict

/-! ## External requests as oracles -/

/-- One entry of the YouTube response's `items[]` (the fields read at lines
290-301).  `thumbnailsHighUrl` is `none` when `"high"` is missing from
`snippet["thumbnails"]`. -/
structure YtItem where
  videoId : PyStr
  title : PyStr
  channelTitle : PyStr
  description : PyStr
  publishedAt : PyStr
  thumbnailsHighUrl : Option PyStr

/-- One entry of the SerpAPI response's `organic_results[]`; each field is
read with `.get(_, "")`, so absence is an `Option`. -/
structure SerpItem where
  title : Option PyStr
  link : Option PyStr
  snippet : Option PyStr

/-- The behaviour of the outside world during one run.  `none` from a request
oracle models a raised `requests` exception (network error / non-2xx /
malformed payload). -/
structure Oracles where
  /-- `candidates[0]...text` of the Gemini call, `none` for any failure mode
  (lines 236-266 collapse them all to `None`). -/
  gemini : Option PyStr
  /-- The YouTube search response for a query and `maxResults` value. -/
  youtube : JVal → Nat → Option (List YtItem)
  /-- The SerpAPI response for a dispatched (already qualified) query. -/
  serp : PyStr → Option (List SerpItem)
  /-- Whether `requests.head(url)` reaches the URL with status 200. -/
  urlOk : PyStr → Bool

/-- `verify_url` (lines 96-102): `True` exactly when the HEAD request returns
status 200; every exception yields `False`. -/
def verify_url (o : Oracles) (url : PyStr) : Bool := o.urlOk url

/-! ## `ResearchAssistant.fetch_youtube_videos` (lines 268-308) -/

/-- The video record built for one response item (lines 294-302). -/
structure VideoRecord where
  title : PyStr
  channel : PyStr
  url : PyStr
  thumbnail : PyStr
  description : PyStr
  published : PyStr
  relevance : PyStr

/-- Lines 294-302: map one `items[]` entry to the stored video record.  The
description is truncated to 200 characters plus `"..."` when longer than 200;
the published date is the first 10 characters of the timestamp. -/
def mkVideoRecord (query : JVal) (item : YtItem) : VideoRecord :=
  { title := item.title
    channel := item.channelTitle
    url := "https://www.youtube.com/watch?v=".toList ++ item.videoId
    thumbnail := match item.thumbnailsHighUrl with | some u => u | none => []
    description :=
      if 200 < item.description.length then item.description.take 200 ++ "...".toList
      else item.description
    published := item.publishedAt.take 10
    relevance := "Related to: ".toList ++ pyFormat query }

/-- `fetch_youtube_videos` (lines 268-308).  Returns the records together with
the list of HTTP requests dispatched (the query of each); an empty key makes
the function return without any request, and a failed request (oracle `none`)
is caught and yields `[]`. -/
def fetch_youtube_videos (ytKey : Option PyStr) (o : Oracles) (query : JVal) (maxResults : Nat) :
    List VideoRecord × List JVal :=
  if ¬ pyTruthyOptStr ytKey then ([], [])
  else
    match o.youtube query maxResults with
    | none => ([], [query])
    | some items => (items.map (mkVideoRecord query), [query])

/-! ## `ResearchAssistant.search_web_content` (lines 104-144) -/

/-- Lines 110-116: the query dispatched for each `search_type`.  Only
`documents`, `profiles` and `academic` append a qualifier; any other value
(in particular `general`) leaves the query unchanged. -/
def serpQuery (query : PyStr) (search_type : PyStr) : PyStr :=
  if search_type = "documents".toList then
    query ++ " filetype:pdf OR site:arxiv.org OR site:researchgate.net OR site:scholar.google.com".toList
  else if search_type = "profiles".toList then
    query ++ " site:linkedin.com/in".toList
  else if search_type = "academic".toList then
    query ++ " site:edu OR site:org research".toList
  else query

/-- Simplified `urlparse(url).netloc`: the text between the first `//` and the
next `/`, `?` or `#` (empty when the URL has no `//`).  Only feeds the
`source` display field. -/
def netloc (url : PyStr) : PyStr :=
  match afterDoubleSlash url with
  | none => []
  | some r => r.takeWhile (fun c => c ≠ '/' && c ≠ '?' && c ≠ '#')
where
  afterDoubleSlash : PyStr → Option PyStr
    | '/' :: '/' :: r => some r
    | _ :: r => afterDoubleSlash r
    | [] => none

/-- The record built from one verified organic result (lines 133-138). -/
structure SearchHit where
  title : PyStr
  url : PyStr
  description : PyStr
  source : PyStr

/-- `search_web_content` (lines 104-144).  Returns the hits together with the
dispatched request queries.  A falsy key returns immediately; a failed
request is caught (`[]`); results whose URL fails `verify_url` are dropped.
A non-string query coming from malformed LLM JSON would fault inside the
`try` (the `+=` of line 112 or the request itself) and is modelled as the
caught-exception result `[]` without a dispatched request; no claim depends
on that corner. -/
def search_web_content (serpKey : Option PyStr) (o : Oracles) (query : JVal) (search_type : PyStr) :
    List SearchHit × List PyStr :=
  if ¬ pyTruthyOptStr serpKey then ([], [])
  else
    match query with
    | .str q =>
      let q2 := serpQuery q search_type
      match o.serp q2 with
      | none => ([], [q2])
      | some items =>
        (items.filterMap (fun it =>
          if verify_url o (it.link.getD []) then
            some { title := it.title.getD []
                   url := it.link.getD []
                   description := it.snippet.getD []
                   source := netloc (it.link.getD []) }
          else none), [q2])
    | _ => ([], [])

/-! ## `ResearchAssistant.get_gemini_response` (lines 236-266) -/

/-- The model priority list of lines 90-94. -/
def geminiModels : List PyStr :=
  ["gemini-2.0-flash".toList, "gemini-1.5-flash-latest".toList, "gemini-pro".toList]

/-- `get_gemini_response`: the first listed model is used when none is given;
a successful call yields the stripped candidate text, every failure mode
collapses to `none` (lines 258-266). -/
def get_gemini_response (resp : Option PyStr) (model : Option PyStr) : Option PyStr × PyStr :=
  let m := model.getD (geminiModels.headD [])
  match resp with
  | some t => (some (pyStrip t), m)
  | none => (none, m)

/-! ## `ResearchAssistant.generate_research_content` (lines 347-469) -/

/-- The static request parameters of one run. -/
structure GenRequest where
  topic : PyStr
  academic_level : PyStr
  research_area : PyStr
  keywords : PyStr
  word_count : Nat
  include_videos : Bool
  include_web_search : Bool

/-- The configured credentials (`__init__`, lines 85-88). -/
structure GenConfig where
  youtube_api_key : Option PyStr
  serpapi_key : Option PyStr

/-- The external requests dispatched during one run. -/
structure Trace where
  videoCalls : List JVal
  searchCalls : List PyStr

/-- The `search_queries` sub-dict of the result (lines 444-449). -/
structure SearchQueriesUsed where
  videos : JVal
  documents : JVal
  web : JVal
  linkedin : JVal

/-- The `metadata` sub-dict of the result (lines 450-459). -/
structure GenMetadata where
  ai_model : PyStr
  generated_at : PyStr
  total_videos : Nat
  videos_included : Nat
  documents_found : Nat
  links_found : Nat
  linkedin_profiles_found : Nat
  web_search_enabled : Bool

/-- The `data` dict of a successful result (lines 433-460). -/
structure ResearchData where
  topic : PyStr
  academic_level : PyStr
  research_area : PyStr
  keywords : PyStr
  word_count : Nat
  content : JVal
  videos : JVal
  documents : JVal
  links : JVal
  linkedin_profiles : JVal
  search_queries : SearchQueriesUsed
  metadata : GenMetadata

/-- The result dict of `generate_research_content`. -/
structure ResearchResult where
  success : Bool
  error : Option PyStr
  data : Option ResearchData

/-- The fixed error message of line 364. -/
def llmFailureMsg : PyStr := "Failed to generate content from AI".toList

/-- Lines 362-366: the failure result for a missing LLM response. -/
def llmFailureResult : ResearchResult :=
  { success := false, error := some llmFailureMsg, data := none }

/-- Lines 465-469: the failure result built by the top-level `except` handler;
`str(e)` is abstracted by the exception's name. -/
def internalFailureResult (e : PyExc) : ResearchResult :=
  { success := false
    error := some ("Internal error: ".toList ++
      match e with
      | .jsonDecodeError => "JSONDecodeError".toList
      | .typeError => "TypeError".toList)
    data := none }

/-- A stored video dict (line 379 stores the dicts built at lines 294-302). -/
def videoToJVal (v : VideoRecord) : JVal :=
  JVal.obj
    [("title".toList, .str v.title),
     ("channel".toList, .str v.channel),
     ("url".toList, .str v.url),
     ("thumbnail".toList, .str v.thumbnail),
     ("description".toList, .str v.description),
     ("published".toList, .str v.published),
     ("relevance".toList, .str v.relevance)]

/-- Lines 371-379: the YouTube fan-out.  When the guard of line 373 holds, one
`fetch_youtube_videos` call per query (cap 3 each) is concatenated and the
first 15 records are stored under `research_data['videos']`.  Returns the
updated dict, `all_youtube_videos`, and the dispatched video queries; iterating
a non-iterable query value raises (`.error`). -/
def videoStage (cfg : GenConfig) (o : Oracles) (rd : PyDict) (include_videos : Bool) :
    Except (PyExc × List JVal) (PyDict × List VideoRecord × List JVal) :=
  if include_videos && pyTruthyOptStr cfg.youtube_api_key && pyTruthyOpt (pdictGet rd vqKey) then
    match pdictGet rd vqKey with
    | some v =>
      match pyIter v with
      | .error e => .error (e, [])
      | .ok qs =>
        let acc := qs.foldl
          (fun (acc : List VideoRecord × List JVal) q =>
            let r := fetch_youtube_videos cfg.youtube_api_key o q 3
            (acc.1 ++ r.1, acc.2 ++ r.2))
          ([], [])
        .ok (pdictSet rd videosKey (JVal.arr ((acc.1.take 15).map videoToJVal)), acc.1, acc.2)
    | none => .ok (rd, [], [])
  else .ok (rd, [], [])

/-- Python `sub in s` for strings: substring containment. -/
def pyInStr (sub : PyStr) : PyStr → Bool
  | [] => sub.isEmpty
  | c :: r => sub.isPrefixOf (c :: r) || pyInStr sub r

/-- A `real_documents` entry (lines 391-398). -/
def docFromHit (query : JVal) (r : SearchHit) : JVal :=
  JVal.obj
    [("title".toList, .str r.title),
     ("url".toList, .str r.url),
     ("description".toList, .str r.description),
     ("source".toList, .str r.source),
     ("type".toList, .str (if pyInStr "pdf".toList r.url then "research_paper".toList
        else "webpage".toList)),
     ("relevance".toList, .str ("Found via search: ".toList ++ pyFormat query))]

/-- A `real_links` entry (lines 404-411). -/
def linkFromHit (query : JVal) (r : SearchHit) : JVal :=
  JVal.obj
    [("title".toList, .str r.title),
     ("url".toList, .str r.url),
     ("description".toList, .str r.description),
     ("source".toList, .str r.source),
     ("type".toList, .str "resource".toList),
     ("relevance".toList, .str ("Found via search: ".toList ++ pyFormat query))]

/-- A `real_linkedin_profiles` entry (lines 417-423). -/
def profileFromHit (query : JVal) (r : SearchHit) : JVal :=
  JVal.obj
    [("name".toList, .str (pyReplace (pyReplace r.title " | LinkedIn".toList [])
        " - LinkedIn".toList [])),
     ("linkedin_url".toList, .str r.url),
     ("description".toList, .str r.description),
     ("relevance".toList, .str ("Found via search: ".toList ++ pyFormat query)),
     ("contact_potential".toList, .str "Medium".toList)]

/-- One of the three per-category fan-out loops of lines 387-423. -/
def searchLoop (serpKey : Option PyStr) (o : Oracles) (queries : JVal) (search_type : PyStr)
    (mk : JVal → SearchHit → JVal) : Except PyExc (List JVal × List PyStr) :=
  match pyIter queries with
  | .error e => .error e
  | .ok qs =>
    .ok (qs.foldl
      (fun (acc : List JVal × List PyStr) q =>
        let r := search_web_content serpKey o q search_type
        (acc.1 ++ r.1.map (mk q), acc.2 ++ r.2))
      ([], []))

/-- Lines 381-423: the three search fan-out loops, run only when web search is
enabled and the SerpAPI key is truthy.  Returns
`(real_documents, real_links, real_linkedin_profiles, dispatched queries)`. -/
def searchStage (cfg : GenConfig) (o : Oracles) (rd : PyDict) (include_web_search : Bool) :
    Except (PyExc × List PyStr) (List JVal × List JVal × List JVal × List PyStr) :=
  if include_web_search && pyTruthyOptStr cfg.serpapi_key then
    match searchLoop cfg.serpapi_key o (pdictGetD rd dqKey (.arr [])) "documents".toList docFromHit with
    | .error e => .error (e, [])
    | .ok (docs, t1) =>
      match searchLoop cfg.serpapi_key o (pdictGetD rd wqKey (.arr [])) "general".toList linkFromHit with
      | .error e => .error (e, t1)
      | .ok (links, t2) =>
        match searchLoop cfg.serpapi_key o (pdictGetD rd lqKey (.arr [])) "profiles".toList profileFromHit with
        | .error e => .error (e, t1 ++ t2)
        | .ok (profs, t3) => .ok (docs, links, profs, t1 ++ t2 ++ t3)
  else .ok ([], [], [], [])

/-- Lines 425-461: choose real results over suggestions and build the success
`data` dict.  The `len(...)` calls of lines 453-457 raise `TypeError` when a
fallback value from the LLM is unsized. -/
def assembleStage (req : GenRequest) (cfg : GenConfig) (model_used now : PyStr) (rd : PyDict)
    (all_yt : List VideoRecord) (docs links profs : List JVal) : Except PyExc ResearchData :=
  let final_documents : JVal := if docs.isEmpty then pdictGetD rd ssKey (.arr []) else .arr docs
  let final_links : JVal := .arr links
  let final_profiles : JVal := if profs.isEmpty then pdictGetD rd seKey (.arr []) else .arr profs
  let vids : JVal := pdictGetD rd videosKey (.arr [])
  match pyLen vids, pyLen final_documents, pyLen final_links, pyLen final_profiles with
  | .ok vn, .ok dn, .ok ln, .ok pn =>
    .ok
      { topic := req.topic
        academic_level := req.academic_level
        research_area := req.research_area
        keywords := req.keywords
        word_count := req.word_count
        content := pdictGetD rd contentKey (.str [])
        videos := vids
        documents := final_documents
        links := final_links
        linkedin_profiles := final_profiles
        search_queries :=
          { videos := pdictGetD rd vqKey (.arr [])
            documents := pdictGetD rd dqKey (.arr [])
            web := pdictGetD rd wqKey (.arr [])
            linkedin := pdictGetD rd lqKey (.arr []) }
        metadata :=
          { ai_model := model_used
            generated_at := now
            total_videos := all_yt.length
            videos_included := vn
            documents_found := dn
            links_found := ln
            linkedin_profiles_found := pn
            web_search_enabled := req.include_web_search && cfg.serpapi_key.isSome } }
  | _, _, _, _ => .error .typeError

/-- `generate_research_content` (lines 347-469).  The whole body sits in one
`try`; any raised exception becomes the failure result of lines 463-469, with
the trace of requests already dispatched.  `now` is the
`datetime.now().isoformat()` timestamp. -/
def generate_research_content (cfg : GenConfig) (req : GenRequest) (o : Oracles) (now : PyStr) :
    ResearchResult × Trace :=
  match get_gemini_response o.gemini none with
  | (none, _) => (llmFailureResult, ⟨[], []⟩)
  | (some t, model_used) =>
    if t.isEmpty then (llmFailureResult, ⟨[], []⟩)
    else
      let rd := parse_json_response t
      match videoStage cfg o rd req.include_videos with
      | .error (e, vtr) => (internalFailureResult e, ⟨vtr, []⟩)
      | .ok (rd2, all_yt, vtr) =>
        match searchStage cfg o rd2 req.include_web_search with
        | .error (e, str) => (internalFailureResult e, ⟨vtr, str⟩)
        | .ok (docs, links, profs, str) =>
          match assembleStage req cfg model_used now rd2 all_yt docs links profs with
          | .error e => (internalFailureResult e, ⟨vtr, str⟩)
          | .ok data => ({ success := true, error := none, data := some data }, ⟨vtr, str⟩)

/-! ## Auxiliary definitions used by the statements below -/

/-- Trailing-whitespace strip; `pyStrip l = dtw (l.dropWhile pySpace)` holds
by definition. -/
def dtw (l : PyStr) : PyStr := (l.reverse.dropWhile pySpace).reverse

/-- A text wrapped in a triple-backtick code fence with the `json` language
tag, as LLMs commonly emit: three backticks, `json`, a newline, the text, a
newline, three backticks. -/
def mkFencedJson (T : PyStr) : PyStr := fenceTagJson ++ '\n' :: (T ++ '\n' :: fenceTag)

/-- Oracles for a world in which every request beyond the LLM call fails. -/
def quietOracles (g : Option PyStr) : Oracles :=
  { gemini := g
    youtube := fun _ _ => none
    serp := fun _ => none
    urlOk := fun _ => false }

/-- A placeholder `ResearchData` used only as a `getD` default below. -/
def emptyResearchData : ResearchData :=
  { topic := [], academic_level := [], research_area := [], keywords := [], word_count := 0
    content := JVal.null, videos := JVal.null, documents := JVal.null, links := JVal.null
    linkedin_profiles := JVal.null
    search_queries := { videos := JVal.null, documents := JVal.null, web := JVal.null, linkedin := JVal.null }
    metadata :=
      { ai_model := [], generated_at := [], total_videos := 0, videos_included := 0
        documents_found := 0, links_found := 0, linkedin_profiles_found := 0
        web_search_enabled := false } }

/-- A prose reply with no JSON object in it. -/
def proseReply : PyStr := "I am sorry, I cannot help with that request.".toList

/-- The two-character text of an empty JSON object. -/
def emptyObjText : PyStr := ['\x7b', '\x7d']

/-- The object text `\x7b"a":[[[[[[]]]]]]\x7d`: six nested arrays, deep enough
to need several decoder frames per character. -/
def nestedObjText : PyStr := '\x7b' :: ("\"a\":[[[[[[]]]]]]".toList ++ ['\x7d'])

/-- An LLM reply whose JSON object itself carries a 16-element `videos` list. -/
def videosLeakText : PyStr :=
  '\x7b' :: ("\"videos\": [0,0,0,0,0,0,0,0,0,0,0,0,0,0,0,0]".toList ++ ['\x7d'])

/-- A 201-character video description. -/
def longDescItem : YtItem :=
  { videoId := [], title := [], channelTitle := []
    description := List.replicate 201 'a', publishedAt := [], thumbnailsHighUrl := none }

/-- Credentials with neither optional key configured. -/
def noKeysConfig : GenConfig := { youtube_api_key := none, serpapi_key := none }

/-- A minimal request with both feature toggles off. -/
def plainRequest : GenRequest :=
  { topic := "T".toList, academic_level := "PhD".toList, research_area := [], keywords := []
    word_count := 2000, include_videos := false, include_web_search := false }

/-- The run exhibiting the `videos` cap violation: toggles off, no keys, and
the LLM reply `videosLeakText`. -/
def videosLeakRun : ResearchResult × Trace :=
  generate_research_content noKeysConfig plainRequest (quietOracles (some videosLeakText)) []

/-- A plain successful run: toggles off, no keys, LLM reply `{}`. -/
def plainRun : ResearchResult × Trace :=
  generate_research_content noKeysConfig plainRequest (quietOracles (some emptyObjText)) []

/-- The `data` record of `plainRun`. -/
def plainRunData : ResearchData := (plainRun.1.data).getD emptyResearchData

/-! ## Lemmas about stripping and slicing -/

theorem pyStrip_def (l : PyStr) : pyStrip l = dtw (l.dropWhile pySpace) := rfl

theorem dtw_cons (c : Char) (l : PyStr) (hc : pySpace c = false) :
    dtw (c :: l) = c :: dtw l := by
  unfold dtw
  rw [List.reverse_cons, List.dropWhile_append]
  split
  · rename_i h
    rw [List.isEmpty_iff] at h
    rw [h, List.dropWhile_cons_of_neg (by simp [hc])]
    simp
  · simp

theorem dtw_append_ws (c : Char) (l : PyStr) (hc : pySpace c = true) :
    dtw (l ++ [c]) = dtw l := by
  unfold dtw
  rw [List.reverse_append]
  simp [hc]

theorem pyStrip_cons_ws (c : Char) (l : PyStr) (hc : pySpace c = true) :
    pyStrip (c :: l) = pyStrip l := by
  rw [pyStrip_def, pyStrip_def, List.dropWhile_cons_of_pos hc]

theorem pyStrip_append_ws (c : Char) (l : PyStr) (hc : pySpace c = true) :
    pyStrip (l ++ [c]) = pyStrip l := by
  rw [pyStrip_def, pyStrip_def, List.dropWhile_append]
  split
  · rename_i h
    rw [List.isEmpty_iff] at h
    rw [h, List.dropWhile_cons_of_pos hc, List.dropWhile_nil]
  · exact dtw_append_ws c _ hc

theorem pyStrip_sandwich (c d : Char) (l : PyStr) (hc : pySpace c = false)
    (hd : pySpace d = false) : pyStrip (c :: (l ++ [d])) = c :: (l ++ [d]) := by
  rw [pyStrip_def, List.dropWhile_cons_of_neg (by simp [hc])]
  unfold dtw
  rw [List.reverse_cons, List.reverse_append, List.reverse_cons]
  simp [hd, hc]

theorem dropWhile_of_stronger (p q : Char → Bool) (l r : PyStr) (c : Char)
    (himp : ∀ x, p x = true → q x = true) (hc : q c = false)
    (h : l.dropWhile p = c :: r) : l.dropWhile q = c :: r := by
  induction l with
  | nil => simp at h
  | cons a t ih =>
    by_cases hp : p a
    · rw [List.dropWhile_cons_of_pos hp] at h
      rw [List.dropWhile_cons_of_pos (himp a hp)]
      exact ih h
    · rw [List.dropWhile_cons_of_neg hp] at h
      obtain ⟨rfl, rfl⟩ := List.cons.inj h
      rw [List.dropWhile_cons_of_neg (by simp [hc])]

theorem pySlice_mid (a m b : PyStr) :
    pySlice (a ++ (m ++ b)) a.length (a.length + m.length) = m := by
  unfold pySlice
  rw [List.take_append_eq_append_take, List.take_of_length_le (Nat.le_add_right _ _),
    Nat.add_sub_cancel_left, List.take_left, List.drop_left]

/-! ## Lemmas about the JSON decoder -/

theorem parseValue_obj_head (f : Nat) (l : PyStr) (o : PyDict) (rest : PyStr)
    (h : parseValue f l = some (JVal.obj o, rest)) : ∃ r, l = '\x7b' :: r := by
  match f, l with
  | 0, l => simp [parseValue] at h
  | f + 1, [] => simp [parseValue] at h
  | f + 1, c :: r =>
    by_cases h1 : c = '\x7b'
    · exact ⟨r, by rw [h1]⟩
    · exfalso
      simp only [parseValue] at h
      rw [if_neg h1] at h
      split_ifs at h <;>
        first
          | (obtain ⟨p, _, hp⟩ := Option.map_eq_some'.mp h
             exact JVal.noConfusion (congrArg Prod.fst hp))
          | (split at h <;> simp_all)

theorem jsonLoads_obj_skipWs (T : PyStr) (o : PyDict) (h : jsonLoads T = some (JVal.obj o)) :
    ∃ r, skipWs T = '\x7b' :: r := by
  unfold jsonLoads at h
  split at h
  · rename_i v rest heq
    split at h
    · obtain rfl : v = JVal.obj o := by injection h
      exact parseValue_obj_head _ _ _ _ heq
    · exact absurd h (by simp)
  · exact absurd h (by simp)

theorem jsonWs_pySpace (x : Char) (hx : jsonWs x = true) : pySpace x = true := by
  simp only [jsonWs, Bool.or_eq_true, decide_eq_true_eq] at hx
  rcases hx with ((h | h) | h) | h <;> subst h <;> rfl

theorem pyStrip_obj_head (T : PyStr) (o : PyDict) (h : jsonLoads T = some (JVal.obj o)) :
    ∃ r, pyStrip T = '\x7b' :: r := by
  obtain ⟨r, hr⟩ := jsonLoads_obj_skipWs T o h
  have h2 : T.dropWhile pySpace = '\x7b' :: r :=
    dropWhile_of_stronger jsonWs pySpace T r '\x7b' jsonWs_pySpace rfl hr
  refine ⟨dtw r, ?_⟩
  rw [pyStrip_def, h2, dtw_cons _ _ (by decide)]

/-! ## Fence stripping -/

theorem mkFencedJson_shape (T : PyStr) :
    mkFencedJson T =
      '\x60' :: ((['\x60', '\x60', 'j', 's', 'o', 'n', '\n'] ++ T ++ ['\n', '\x60', '\x60']) ++ ['\x60']) := by
  simp [mkFencedJson, fenceTagJson, fenceTag]

theorem pyStrip_mkFencedJson (T : PyStr) : pyStrip (mkFencedJson T) = mkFencedJson T := by
  rw [mkFencedJson_shape]
  exact pyStrip_sandwich _ _ _ (by decide) (by decide)

theorem mkFencedJson_assoc (T : PyStr) :
    mkFencedJson T = fenceTagJson ++ (('\n' :: (T ++ ['\n'])) ++ fenceTag) := by
  simp [mkFencedJson]

theorem length_mkFencedJson (T : PyStr) : (mkFencedJson T).length = T.length + 12 := by
  simp [mkFencedJson, fenceTagJson, fenceTag]

theorem fenceStripped_mkFencedJson (T : PyStr) :
    fenceStripped (mkFencedJson T) = pyStrip T := by
  unfold fenceStripped
  rw [pyStrip_mkFencedJson]
  unfold stripFences
  rw [if_pos (by rw [List.isPrefixOf_iff_prefix, mkFencedJson_assoc]; exact List.prefix_append _ _)]
  have hs : pySlice (mkFencedJson T) 7 ((mkFencedJson T).length - 3) = '\n' :: (T ++ ['\n']) := by
    have h7 : (7 : Nat) = fenceTagJson.length := by decide
    have hlen : (mkFencedJson T).length - 3 = fenceTagJson.length + ('\n' :: (T ++ ['\n'])).length := by
      rw [length_mkFencedJson]
      simp [fenceTagJson]
      omega
    rw [h7, hlen, mkFencedJson_assoc]
    have := pySlice_mid fenceTagJson ('\n' :: (T ++ ['\n'])) fenceTag
    rw [← List.append_assoc] at this ⊢
    exact this
  rw [hs, pyStrip_cons_ws _ _ (by decide), pyStrip_append_ws _ _ (by decide)]

theorem fenceStripped_of_obj (T : PyStr) (o : PyDict) (h : jsonLoads T = some (JVal.obj o)) :
    fenceStripped T = pyStrip T := by
  obtain ⟨r, hr⟩ := pyStrip_obj_head T o h
  unfold fenceStripped stripFences
  rw [hr]
  rw [if_neg (by simp [fenceTagJson, List.isPrefixOf]), if_neg (by simp [fenceTag, List.isPrefixOf])]

/-! ## Lemmas about dicts -/

theorem find?_overwrite (k k' : PyStr) (v : JVal) (hne : k' ≠ k) (d : PyDict) :
    (d.map (fun kv => if kv.1 == k then (k, v) else kv)).find? (fun kv => kv.1 == k') =
      d.find? (fun kv => kv.1 == k') := by
  induction d with
  | nil => rfl
  | cons kv t ih =>
    simp only [List.map_cons, List.find?_cons]
    by_cases hk : kv.1 = k
    · rw [if_pos (by simpa using hk)]
      have h1 : ((k, v).1 == k') = false := by simp [Ne.symm hne]
      have h2 : (kv.1 == k') = false := by simp [hk, Ne.symm hne]
      simp only [h1, h2]
      exact ih
    · rw [if_neg (by simpa using hk)]
      by_cases hk' : (kv.1 == k') = true
      · simp [hk']
      · simp only [Bool.not_eq_true] at hk'
        simp only [hk']
        exact ih

theorem pdictGet_set_ne (d : PyDict) (k k' : PyStr) (v : JVal) (hne : k' ≠ k) :
    pdictGet (pdictSet d k v) k' = pdictGet d k' := by
  unfold pdictSet
  split
  · unfold pdictGet
    rw [find?_overwrite k k' v hne]
  · unfold pdictGet
    rw [List.find?_append]
    have hnone : (([(k, v)] : PyDict).find? (fun kv => kv.1 == k')) = none := by
      simp [Ne.symm hne]
    rw [hnone]
    simp

theorem find?_overwrite_self (k : PyStr) (v : JVal) (d : PyDict) (hmem : k ∈ pdictKeys d) :
    (d.map (fun kv => if kv.1 == k then (k, v) else kv)).find? (fun kv => kv.1 == k) =
      some (k, v) := by
  induction d with
  | nil => exact absurd hmem (by simp [pdictKeys])
  | cons kv t ih =>
    simp only [List.map_cons, List.find?_cons]
    by_cases hk : kv.1 = k
    · rw [if_pos (by simpa using hk)]
      simp
    · rw [if_neg (by simpa using hk)]
      have h2 : (kv.1 == k) = false := by simpa using hk
      simp only [h2]
      refine ih ?_
      rcases List.mem_map.mp hmem with ⟨kv2, hkv2, hkey⟩
      rcases List.mem_cons.mp hkv2 with rfl | h
      · exact absurd hkey hk
      · exact List.mem_map.mpr ⟨kv2, h, hkey⟩

theorem pdictGet_set_self (d : PyDict) (k : PyStr) (v : JVal) :
    pdictGet (pdictSet d k v) k = some v := by
  unfold pdictSet
  split
  · rename_i h
    unfold pdictGet
    rw [find?_overwrite_self k v d (by simpa [pdictKeys] using h)]
    rfl
  · rename_i h
    unfold pdictGet
    rw [List.find?_append]
    have hnone : d.find? (fun kv => kv.1 == k) = none := by
      rw [List.find?_eq_none]
      intro kv hkv hbeq
      refine h ?_
      simp only [pdictKeys, List.contains_iff_exists_mem_beq, List.mem_map]
      exact ⟨kv.1, ⟨kv, hkv, rfl⟩, by simp [show kv.1 = k by simpa using hbeq]⟩
    rw [hnone]
    simp

theorem mem_pdictKeys_set_of (d : PyDict) (k k' : PyStr) (v : JVal)
    (h : k' = k ∨ k' ∈ pdictKeys d) : k' ∈ pdictKeys (pdictSet d k v) := by
  unfold pdictSet
  split
  · rename_i hc
    have hmem : k ∈ pdictKeys d := by simpa [pdictKeys] using hc
    unfold pdictKeys at *
    rw [List.map_map]
    rcases h with rfl | h
    · obtain ⟨kv, hkv, hkey⟩ := List.mem_map.mp hmem
      refine List.mem_map.mpr ⟨kv, hkv, ?_⟩
      simp only [Function.comp_apply]
      rw [if_pos (show (kv.1 == k') = true by simpa using hkey)]
    · obtain ⟨kv, hkv, hkey⟩ := List.mem_map.mp h
      refine List.mem_map.mpr ⟨kv, hkv, ?_⟩
      simp only [Function.comp_apply]
      by_cases hk : kv.1 = k
      · rw [if_pos (show (kv.1 == k) = true by simpa using hk)]
        show k = k'
        rw [← hk, hkey]
      · rw [if_neg (show ¬ ((kv.1 == k) = true) by simpa using hk)]
        exact hkey
  · unfold pdictKeys at *
    rw [List.map_append]
    rcases h with rfl | h
    · exact List.mem_append_right _ (by simp)
    · exact List.mem_append_left _ h

theorem mem_pdictKeys_backfillStep_self (d : PyDict) (k : PyStr) :
    k ∈ pdictKeys (backfillStep d k) := by
  unfold backfillStep
  split
  · rename_i h
    simpa [pdictKeys] using h
  · exact mem_pdictKeys_set_of d k k _ (Or.inl rfl)

theorem mem_pdictKeys_backfillStep_mono (d : PyDict) (k k' : PyStr)
    (h : k' ∈ pdictKeys d) : k' ∈ pdictKeys (backfillStep d k) := by
  unfold backfillStep
  split
  · exact h
  · exact mem_pdictKeys_set_of d k k' _ (Or.inr h)

theorem mem_pdictKeys_foldl (ks : List PyStr) : ∀ (d : PyDict) (k : PyStr),
    (k ∈ ks ∨ k ∈ pdictKeys d) → k ∈ pdictKeys (ks.foldl backfillStep d) := by
  induction ks with
  | nil =>
    intro d k h
    rcases h with h | h
    · exact absurd h (List.not_mem_nil k)
    · simpa using h
  | cons a t ih =>
    intro d k h
    rw [List.foldl_cons]
    rcases h with h | h
    · rcases List.mem_cons.mp h with rfl | h
      · exact ih _ _ (Or.inr (mem_pdictKeys_backfillStep_self d k))
      · exact ih _ _ (Or.inl h)
    · exact ih _ _ (Or.inr (mem_pdictKeys_backfillStep_mono d a k h))

theorem mem_pdictKeys_backfill (o : PyDict) (k : PyStr) (h : k ∈ requiredKeys) :
    k ∈ pdictKeys (backfillRequired o) :=
  mem_pdictKeys_foldl requiredKeys o k (Or.inl h)

/-! ## Lemmas about the aggregation stages -/

theorem assembleStage_ok (req : GenRequest) (cfg : GenConfig) (mu now : PyStr) (rd : PyDict)
    (all_yt : List VideoRecord) (docs links profs : List JVal) (d : ResearchData)
    (h : assembleStage req cfg mu now rd all_yt docs links profs = .ok d) :
    d.videos = pdictGetD rd videosKey (.arr []) ∧
    d.documents = (if docs.isEmpty then pdictGetD rd ssKey (.arr []) else .arr docs) ∧
    d.links = JVal.arr links ∧
    d.linkedin_profiles = (if profs.isEmpty then pdictGetD rd seKey (.arr []) else .arr profs) ∧
    pyLen d.videos = .ok d.metadata.videos_included ∧
    pyLen d.documents = .ok d.metadata.documents_found ∧
    pyLen d.links = .ok d.metadata.links_found ∧
    pyLen d.linkedin_profiles = .ok d.metadata.linkedin_profiles_found := by
  unfold assembleStage at h
  dsimp only at h
  split at h
  · rename_i vn dn ln pn hvn hdn hln hpn
    obtain rfl := Except.ok.inj h
    exact ⟨rfl, rfl, rfl, rfl, hvn, hdn, hln, hpn⟩
  · exact absurd h (by simp)
theorem searchStage_disabled (cfg : GenConfig) (o : Oracles) (rd : PyDict) (ws : Bool)
    (h : ws = false ∨ cfg.serpapi_key = none) :
    searchStage cfg o rd ws = .ok ([], [], [], []) := by
  unfold searchStage
  rw [if_neg]
  rcases h with rfl | h
  · simp
  · rw [h]
    simp [pyTruthyOptStr]

theorem videoStage_ok (cfg : GenConfig) (o : Oracles) (rd rd2 : PyDict) (iv : Bool)
    (all_yt : List VideoRecord) (vtr : List JVal)
    (h : videoStage cfg o rd iv = .ok (rd2, all_yt, vtr)) :
    (rd2 = rd ∧
      (iv && pyTruthyOptStr cfg.youtube_api_key && pyTruthyOpt (pdictGet rd vqKey)) = false) ∨
    rd2 = pdictSet rd videosKey (JVal.arr ((all_yt.take 15).map videoToJVal)) := by
  unfold videoStage at h
  split at h
  · rename_i hcond
    split at h
    · rename_i v hv
      split at h
      · exact absurd h (by simp)
      · right
        dsimp only at h
        replace h := Except.ok.inj h
        rw [Prod.ext_iff] at h
        obtain ⟨h1, h23⟩ := h
        rw [Prod.ext_iff] at h23
        obtain ⟨h2, h3⟩ := h23
        dsimp only at h1 h2 h3
        rw [← h1, ← h2]
    · rename_i hv
      left
      replace h := Except.ok.inj h
      rw [Prod.ext_iff] at h
      obtain ⟨h1, -⟩ := h
      dsimp only at h1
      refine ⟨h1.symm, ?_⟩
      rw [hv] at hcond
      simp [pyTruthyOpt] at hcond
  · rename_i hcond
    left
    replace h := Except.ok.inj h
    rw [Prod.ext_iff] at h
    obtain ⟨h1, -⟩ := h
    dsimp only at h1
    exact ⟨h1.symm, by simpa using hcond⟩

theorem videoStage_get_ne (cfg : GenConfig) (o : Oracles) (rd rd2 : PyDict) (iv : Bool)
    (all_yt : List VideoRecord) (vtr : List JVal) (k : PyStr) (hk : k ≠ videosKey)
    (h : videoStage cfg o rd iv = .ok (rd2, all_yt, vtr)) :
    pdictGet rd2 k = pdictGet rd k := by
  rcases videoStage_ok cfg o rd rd2 iv all_yt vtr h with ⟨rfl, -⟩ | rfl
  · rfl
  · exact pdictGet_set_ne rd videosKey k _ hk

theorem generate_data_some (cfg : GenConfig) (req : GenRequest) (o : Oracles) (now : PyStr)
    (d : ResearchData) (h : (generate_research_content cfg req o now).1.data = some d) :
    ∃ t rd2 all_yt vtr docs links profs str,
      o.gemini = some t ∧
      videoStage cfg o (parse_json_response (pyStrip t)) req.include_videos =
        .ok (rd2, all_yt, vtr) ∧
      searchStage cfg o rd2 req.include_web_search = .ok (docs, links, profs, str) ∧
      assembleStage req cfg (geminiModels.headD []) now rd2 all_yt docs links profs = .ok d := by
  unfold generate_research_content at h
  split at h
  · exact absurd h (by simp [llmFailureResult])
  · rename_i t mu heq
    obtain ⟨t0, ho, hstrip, hmu⟩ :
        ∃ t0, o.gemini = some t0 ∧ pyStrip t0 = t ∧ mu = geminiModels.headD [] := by
      cases ho : o.gemini with
      | none => rw [ho] at heq; exact absurd heq (by simp [get_gemini_response])
      | some t0 =>
        rw [ho] at heq
        refine ⟨t0, rfl, ?_, ?_⟩
        · simpa [get_gemini_response] using congrArg Prod.fst heq
        · simpa [get_gemini_response] using (congrArg Prod.snd heq).symm
    split at h
    · exact absurd h (by simp [llmFailureResult])
    · dsimp only at h
      split at h
      · exact absurd h (by simp [internalFailureResult])
      · rename_i trip hvs
        split at h
        · exact absurd h (by simp [internalFailureResult])
        · rename_i quad hss
          split at h
          · exact absurd h (by simp [internalFailureResult])
          · rename_i data has
            obtain rfl : data = d := by simpa using h
            subst hstrip hmu
            exact ⟨t0, _, _, _, _, _, _, _, ho, hvs, hss, has⟩

theorem generate_searchCalls_empty (cfg : GenConfig) (req : GenRequest) (o : Oracles)
    (now : PyStr) (hws : req.include_web_search = false ∨ cfg.serpapi_key = none) :
    (generate_research_content cfg req o now).2.searchCalls = [] := by
  unfold generate_research_content
  split
  · rfl
  · split
    · rfl
    · dsimp only
      split
      · rfl
      · rename_i trip hvs
        rw [searchStage_disabled cfg o _ req.include_web_search hws]
        dsimp only
        split
        · rfl
        · rfl

/-! ## The claims -/

/-- Claim C1: for every input string from which the fence-strip and bracket
scan of `parse_json_response` cannot extract a decodable JSON object (plain
prose included), the function returns the canonical fallback: `content` is the
fixed apology string and all six list-valued fields are the empty sequence. -/
theorem c1_fallback_on_undecodable (s : PyStr)
    (h : ∀ t, extractCandidate s = some t → ∀ o, jsonLoads t ≠ some (JVal.obj o)) :
    pdictGet (parse_json_response s) contentKey = some (.str apologyText) ∧
    ∀ k, k ∈ listFieldKeys → pdictGet (parse_json_response s) k = some (JVal.arr []) := by
  have hpa : ∀ d, parseAttempt s ≠ .ok (some d) := by
    intro d hd
    unfold parseAttempt at hd
    split at hd
    · rename_i t hx
      split at hd
      · rename_i o hj
        exact h t hx o hj
      · cases hd
      · cases hd
    · simp at hd
  have hfb : parse_json_response s = fallbackDict := by
    unfold parse_json_response
    cases hx : parseAttempt s with
    | error e => rfl
    | ok od =>
      cases od with
      | none => rfl
      | some d => exact absurd hx (hpa d)
  rw [hfb]
  refine ⟨rfl, ?_⟩
  intro k hk
  simp only [listFieldKeys, List.mem_cons, List.not_mem_nil, or_false] at hk
  rcases hk with rfl | rfl | rfl | rfl | rfl | rfl <;> rfl

/-- Witness for C1: a concrete prose reply with no JSON object in it. -/
theorem c1_witness :
    pdictGet (parse_json_response proseReply) contentKey = some (.str apologyText) ∧
    ∀ k, k ∈ listFieldKeys → pdictGet (parse_json_response proseReply) k = some (JVal.arr []) :=
  c1_fallback_on_undecodable proseReply (by
    intro t ht o
    rw [show extractCandidate proseReply = none from rfl] at ht
    cases ht)

/-- Claim C2: `parse_json_response` is total — on every input the version with
the exception behaviour left visible returns `Except.ok`, and its value is
the dictionary the pure function returns. -/
theorem c2_parse_total (s : PyStr) :
    ∃ d, parse_json_response_checked s = Except.ok d ∧ parse_json_response s = d := by
  unfold parse_json_response_checked parse_json_response
  cases parseAttempt s with
  | ok od =>
    cases od with
    | some d => exact ⟨d, rfl, rfl⟩
    | none => exact ⟨fallbackDict, rfl, rfl⟩
  | error e => exact ⟨fallbackDict, rfl, rfl⟩

/-- Claim C3: for every input string, the dictionary returned by
`parse_json_response` contains every key of the required-key set, whatever
subset of them the decoded object had. -/
theorem c3_required_keys (s : PyStr) (k : PyStr) (h : k ∈ requiredKeys) :
    k ∈ pdictKeys (parse_json_response s) := by
  unfold parse_json_response
  cases hx : parseAttempt s with
  | error e => exact (show pdictKeys fallbackDict = requiredKeys from rfl) ▸ h
  | ok od =>
    cases od with
    | none => exact (show pdictKeys fallbackDict = requiredKeys from rfl) ▸ h
    | some d =>
      obtain ⟨o, rfl⟩ : ∃ o, d = backfillRequired o := by
        unfold parseAttempt at hx
        split at hx
        · split at hx
          · rename_i o hj
            exact ⟨o, by simpa using hx.symm⟩
          · exact absurd hx (by simp)
          · exact absurd hx (by simp)
        · exact absurd hx (by simp)
      exact mem_pdictKeys_backfill o k h

/-- Witness for C3 at a concrete input and key. -/
theorem c3_witness : contentKey ∈ pdictKeys (parse_json_response proseReply) :=
  c3_required_keys proseReply contentKey (by simp [requiredKeys])

/-- Claim C4: for every text that decodes as a JSON object, wrapping it in a
triple-backtick fence with the `json` language tag does not change the result
of `parse_json_response`. -/
theorem c4_fence_invariant (T : PyStr) (o : PyDict) (h : jsonLoads T = some (JVal.obj o)) :
    parse_json_response (mkFencedJson T) = parse_json_response T := by
  have h1 : extractCandidate (mkFencedJson T) = extractCandidate T := by
    unfold extractCandidate
    rw [fenceStripped_mkFencedJson, fenceStripped_of_obj T o h]
  unfold parse_json_response parseAttempt
  rw [h1]

/-- Witness for C4 at a concrete deeply nested object text. -/
theorem c4_witness :
    parse_json_response (mkFencedJson nestedObjText) = parse_json_response nestedObjText :=
  c4_fence_invariant nestedObjText
    [("a".toList,
      JVal.arr [JVal.arr [JVal.arr [JVal.arr [JVal.arr [JVal.arr []]]]]])]
    (by rfl)

/-- Claim C5: the video record stores a description of exactly 203 characters
(the first 200 of the original then `"..."`) when the snippet description is
longer than 200 characters, and the unchanged description otherwise. -/
theorem c5_description_truncation (q : JVal) (item : YtItem) :
    (200 < item.description.length →
      (mkVideoRecord q item).description.length = 203 ∧
      (mkVideoRecord q item).description = item.description.take 200 ++ "...".toList) ∧
    (item.description.length ≤ 200 →
      (mkVideoRecord q item).description = item.description) := by
  constructor
  · intro hlen
    have hdesc : (mkVideoRecord q item).description =
        item.description.take 200 ++ "...".toList := by
      unfold mkVideoRecord
      dsimp only
      rw [if_pos hlen]
    refine ⟨?_, hdesc⟩
    rw [hdesc, List.length_append, List.length_take,
      show ("...".toList).length = 3 from rfl]
    omega
  · intro hlen
    unfold mkVideoRecord
    dsimp only
    rw [if_neg (by omega)]

/-- Witness for C5 at a 201-character description. -/
theorem c5_witness :
    (mkVideoRecord (JVal.str []) longDescItem).description.length = 203 ∧
    (mkVideoRecord (JVal.str []) longDescItem).description =
      longDescItem.description.take 200 ++ "...".toList :=
  (c5_description_truncation (JVal.str []) longDescItem).1 (by simp [longDescItem])

/-- Claim C6, counterexample: a run in which the LLM reply itself carries a
16-element `videos` key and the video-fetch branch does not execute stores a
16-element `data.videos` list, exceeding the cap of 15 the claim states for
every run. -/
theorem c6_counterexample :
    (videosLeakRun.1.data.map (fun d => pyLen d.videos)) = some (Except.ok 16) ∧
      ¬ (16 ≤ 15) :=
  ⟨rfl, by decide⟩

/-- Claim C6 as amended: in every run in which the video-fetch branch executes
or the parsed LLM reply has no `videos` key of its own, the stored
`data.videos` has length at most 15. -/
theorem c6_video_cap (cfg : GenConfig) (req : GenRequest) (o : Oracles) (now t : PyStr)
    (d : ResearchData) (hg : o.gemini = some t)
    (h : (generate_research_content cfg req o now).1.data = some d)
    (hv : pdictGet (parse_json_response (pyStrip t)) videosKey = none ∨
      (req.include_videos && pyTruthyOptStr cfg.youtube_api_key &&
        pyTruthyOpt (pdictGet (parse_json_response (pyStrip t)) vqKey)) = true) :
    ∃ n, pyLen d.videos = Except.ok n ∧ n ≤ 15 := by
  obtain ⟨t', rd2, all_yt, vtr, docs, links, profs, str, hg', hvs, hss, has⟩ :=
    generate_data_some cfg req o now d h
  obtain rfl : t' = t := Option.some.inj (hg'.symm.trans hg)
  obtain ⟨hvid, -, -, -, -, -, -, -⟩ := assembleStage_ok _ _ _ _ _ _ _ _ _ _ has
  rcases videoStage_ok cfg o _ rd2 req.include_videos all_yt vtr hvs with ⟨rfl, hcond⟩ | rfl
  · rcases hv with hnone | htrue
    · rw [hvid]
      unfold pdictGetD
      rw [hnone]
      exact ⟨0, rfl, by omega⟩
    · rw [htrue] at hcond
      cases hcond
  · rw [hvid]
    unfold pdictGetD
    rw [pdictGet_set_self]
    refine ⟨((all_yt.take 15).map videoToJVal).length, rfl, ?_⟩
    rw [List.length_map, List.length_take]
    exact min_le_left _ _

/-- Witness for the amended C6 at a concrete run with an LLM reply of `{}`. -/
theorem c6_witness : ∃ n, pyLen plainRunData.videos = Except.ok n ∧ n ≤ 15 :=
  c6_video_cap noKeysConfig plainRequest (quietOracles (some emptyObjText)) [] emptyObjText
    plainRunData rfl rfl (Or.inl rfl)

/-- Claim C7: when the LLM yields no text, the run returns the fixed failure
result — `success` false, `data` absent, a fixed non-empty error message —
and dispatches no video or web search request at all. -/
theorem c7_llm_failure (cfg : GenConfig) (req : GenRequest) (o : Oracles) (now : PyStr)
    (h : o.gemini = none) :
    generate_research_content cfg req o now = (llmFailureResult, ⟨[], []⟩) ∧
    llmFailureResult.success = false ∧ llmFailureResult.data = none ∧
    llmFailureResult.error = some llmFailureMsg ∧ llmFailureMsg ≠ [] := by
  refine ⟨?_, rfl, rfl, rfl, by decide⟩
  unfold generate_research_content
  rw [show get_gemini_response o.gemini none = (none, geminiModels.headD []) from by
    rw [h]; rfl]

/-- Witness for C7 at a concrete run whose LLM oracle fails. -/
theorem c7_witness :
    generate_research_content noKeysConfig plainRequest (quietOracles none) [] =
      (llmFailureResult, ⟨[], []⟩) :=
  (c7_llm_failure noKeysConfig plainRequest (quietOracles none) [] rfl).1

/-- Claim C8: when web search is disabled or the SerpAPI credential is absent,
no search request is dispatched, and in a successful run the documents list
falls back to the LLM's `suggested_sources`, the links list to the empty
sequence, and the profiles list to the LLM's `suggested_experts`. -/
theorem c8_no_search_fallbacks (cfg : GenConfig) (req : GenRequest) (o : Oracles) (now : PyStr)
    (hws : req.include_web_search = false ∨ cfg.serpapi_key = none) :
    (generate_research_content cfg req o now).2.searchCalls = [] ∧
    ∀ t d, o.gemini = some t →
      (generate_research_content cfg req o now).1.data = some d →
      d.documents = pdictGetD (parse_json_response (pyStrip t)) ssKey (JVal.arr []) ∧
      d.links = JVal.arr [] ∧
      d.linkedin_profiles = pdictGetD (parse_json_response (pyStrip t)) seKey (JVal.arr []) := by
  refine ⟨generate_searchCalls_empty cfg req o now hws, ?_⟩
  intro t d hg h
  obtain ⟨t', rd2, all_yt, vtr, docs, links, profs, str, hg', hvs, hss, has⟩ :=
    generate_data_some cfg req o now d h
  obtain rfl : t' = t := Option.some.inj (hg'.symm.trans hg)
  rw [searchStage_disabled cfg o rd2 req.include_web_search hws] at hss
  obtain ⟨rfl, rfl, rfl, -⟩ : docs = [] ∧ links = [] ∧ profs = [] ∧ str = [] := by
    simpa using hss.symm
  obtain ⟨-, hdocs, hlinks, hprofs, -, -, -, -⟩ := assembleStage_ok _ _ _ _ _ _ _ _ _ _ has
  have hget := fun k hk => videoStage_get_ne _ _ _ _ _ _ _ k hk hvs
  refine ⟨?_, ?_, ?_⟩
  · rw [hdocs]
    simp only [List.isEmpty_nil, if_true]
    unfold pdictGetD
    rw [hget ssKey (by decide)]
  · rw [hlinks]
  · rw [hprofs]
    simp only [List.isEmpty_nil, if_true]
    unfold pdictGetD
    rw [hget seKey (by decide)]

/-- Witness for C8 at a concrete run with web search disabled. -/
theorem c8_witness :
    plainRun.2.searchCalls = [] ∧
    plainRunData.documents =
      pdictGetD (parse_json_response (pyStrip emptyObjText)) ssKey (JVal.arr []) := by
  have h := c8_no_search_fallbacks noKeysConfig plainRequest
    (quietOracles (some emptyObjText)) [] (Or.inl rfl)
  exact ⟨h.1, (h.2 emptyObjText plainRunData rfl rfl).1⟩

/-- Claim C9, counterexample: for the `general` category no fixed non-empty
qualifier is appended — the dispatched query is the raw query itself, so no
non-empty suffix works uniformly (instantiated at the empty query). -/
theorem c9_counterexample :
    ¬ ∃ suffix : PyStr, suffix ≠ [] ∧
      ∀ q : PyStr, serpQuery q "general".toList = q ++ suffix := by
  rintro ⟨suf, hne, hall⟩
  have h := hall []
  rw [show serpQuery [] "general".toList = [] from rfl] at h
  exact hne h.symm

/-- Claim C9 as amended: `search_web_content` dispatches exactly the query
`serpQuery query category`; for `documents`, `profiles` and `academic` that
appends the category's fixed qualifier to the raw query, while for `general`
the raw query is dispatched unchanged. -/
theorem c9_query_qualifiers (k : PyStr) (o : Oracles) (q : PyStr) (st : PyStr) (hk : k ≠ []) :
    (search_web_content (some k) o (JVal.str q) st).2 = [serpQuery q st] ∧
    serpQuery q "documents".toList =
      q ++ " filetype:pdf OR site:arxiv.org OR site:researchgate.net OR site:scholar.google.com".toList ∧
    serpQuery q "profiles".toList = q ++ " site:linkedin.com/in".toList ∧
    serpQuery q "academic".toList = q ++ " site:edu OR site:org research".toList ∧
    serpQuery q "general".toList = q := by
  refine ⟨?_, ?_, ?_, ?_, ?_⟩
  · unfold search_web_content
    rw [if_neg (by simp [pyTruthyOptStr, hk])]
    dsimp only
    cases o.serp (serpQuery q st) <;> rfl
  · unfold serpQuery
    rw [if_pos rfl]
  · unfold serpQuery
    rw [if_neg (by decide), if_pos rfl]
  · unfold serpQuery
    rw [if_neg (by decide), if_neg (by decide), if_pos rfl]
  · unfold serpQuery
    rw [if_neg (by decide), if_neg (by decide), if_neg (by decide)]

/-- Witness for the amended C9 at a concrete key and query. -/
theorem c9_witness :
    (search_web_content (some ['k']) (quietOracles none) (JVal.str ['q'])
      "general".toList).2 = [serpQuery ['q'] "general".toList] :=
  (c9_query_qualifiers ['k'] (quietOracles none) ['q'] "general".toList (by decide)).1

/-- Claim C10: in every successful run the metadata counts equal the lengths
of the corresponding returned lists. -/
theorem c10_metadata_counts (cfg : GenConfig) (req : GenRequest) (o : Oracles) (now : PyStr)
    (d : ResearchData) (h : (generate_research_content cfg req o now).1.data = some d) :
    pyLen d.documents = Except.ok d.metadata.documents_found ∧
    pyLen d.links = Except.ok d.metadata.links_found ∧
    pyLen d.linkedin_profiles = Except.ok d.metadata.linkedin_profiles_found ∧
    pyLen d.videos = Except.ok d.metadata.videos_included := by
  obtain ⟨t, rd2, all_yt, vtr, docs, links, profs, str, -, -, -, has⟩ :=
    generate_data_some cfg req o now d h
  obtain ⟨-, -, -, -, hv, hd, hl, hp⟩ := assembleStage_ok _ _ _ _ _ _ _ _ _ _ has
  exact ⟨hd, hl, hp, hv⟩

/-- Witness for C10 at a concrete successful run. -/
theorem c10_witness :
    pyLen plainRunData.documents = Except.ok plainRunData.metadata.documents_found ∧
    pyLen plainRunData.links = Except.ok plainRunData.metadata.links_found ∧
    pyLen plainRunData.linkedin_profiles =
      Except.ok plainRunData.metadata.linkedin_profiles_found ∧
    pyLen plainRunData.videos = Except.ok plainRunData.metadata.videos_included :=
  c10_metadata_counts noKeysConfig plainRequest (quietOracles (some emptyObjText)) []
    plainRunData rfl
